import Mathlib

/-!
Verification of the event bridge (`src/packages/bridge/src/Bridge.ts`).

The bridge normalizes raw inbound `(kind, payload)` messages into typed
emissions on a publish/subscribe bus, manages a single-slot binding to an
external raw-message source, and sends outbound events over one of three
environment-dependent transports.

We embed the TypeScript shallowly:
* JS runtime values are `JSValue` (with distinct `undefined` and `null`).
* The bus is modelled by its emission log (`Bus`): each entry records one
  round of synchronous listener invocations, either on the typed path
  (`emit`) or on the unsafe path (`emitUnsafe`).
* The payload extractors live in `twa-core`/`parsing.ts`, outside the file
  under verification; `processEvent` is parameterized by them as abstract
  `JSValue → Except String JSValue` functions, matching their contract of
  "validated payload or shape-validation error".
* A thrown JS error is the `Option String` component of the result: `some e`
  means the error `e` propagated out of the call.
-/

namespace BridgeModel

/-- Model of JavaScript runtime values, as far as the bridge inspects them.
`undef` and `jsNull` are distinct, mirroring `undefined` vs `null`. -/
inductive JSValue where
  | undef
  | jsNull
  | bool (b : Bool)
  | num (n : Int)
  | str (s : String)
  | obj (fields : List (String × JSValue))

/-- One round of listener invocations on the bus: either a typed emission
(`this.emit(type)` / `this.emit(type, payload)`) or an unsafe one
(`this.emitUnsafe(type, data)`). -/
inductive Emission where
  | typed (kind : String) (payload : Option JSValue)
  | untyped (kind : String) (payload : JSValue)

/-- Bus state: the log of emissions performed so far.  Listener invocations
are synchronous and happen exactly once per logged emission. -/
abbrev Bus := List Emission

/-- The payload extractors imported by `Bridge.ts` (from `./parsing` and
`twa-core`).  Their bodies are external to the file under verification;
each is an abstract pure function returning a validated payload or a
shape-validation error. -/
structure Extractors where
  extractViewportChangedPayload : JSValue → Except String JSValue
  extractThemeChangedPayload : JSValue → Except String JSValue
  extractPopupClosedPayload : JSValue → Except String JSValue
  extractInvoiceClosedPayload : JSValue → Except String JSValue
  parseJsonParamAsString : JSValue → Except String JSValue

/-- The canonical "closed without a button selection" payload synthesized by
`processEvent` for `popup_closed`: `{button_id: null}`. -/
def popupNoButton : JSValue := .obj [("button_id", .jsNull)]

/-- Running `this.emit(type, extractor(data))`: the extractor runs first; on
success the emission is appended to the bus, on failure the error is thrown
before any emission happens. -/
def emitExtracted (r : Except String JSValue) (bus : Bus) (type : String) :
    Bus × Option String :=
  match r with
  | .ok p => (bus ++ [.typed type (some p)], none)
  | .error e => (bus, some e)

/-- `Bridge.processEvent` (Bridge.ts:115-159): the switch over inbound event
kinds.  Result: the bus after the call, and the error that propagated out
(the `catch` block logs and rethrows, so errors escape unchanged). -/
def processEvent (ex : Extractors) (bus : Bus) (type : String) (data : JSValue) :
    Bus × Option String :=
  if type = "viewport_changed" then
    emitExtracted (ex.extractViewportChangedPayload data) bus type
  else if type = "theme_changed" then
    emitExtracted (ex.extractThemeChangedPayload data) bus type
  else if type = "popup_closed" then
    match data with
    | .undef => (bus ++ [.typed type (some popupNoButton)], none)
    | .jsNull => (bus ++ [.typed type (some popupNoButton)], none)
    | _ => emitExtracted (ex.extractPopupClosedPayload data) bus type
  else if type = "set_custom_style" then
    emitExtracted (ex.parseJsonParamAsString data) bus type
  else if type = "main_button_pressed" ∨ type = "back_button_pressed" ∨
      type = "settings_button_pressed" then
    (bus ++ [.typed type none], none)
  else if type = "invoice_closed" then
    emitExtracted (ex.extractInvoiceClosedPayload data) bus type
  else
    (bus ++ [.untyped type data], none)

/-! ### Binding manager

`Bridge._boundEmitter` holds at most one `GlobalEventEmitter`; the private
`boundEmitter` setter (Bridge.ts:79-91) detaches `processEvent` from the
previous emitter, assigns the new one, then attaches.  We identify emitters
by `Nat` ids and track, as `attached`, the list of emitters whose `message`
listener lists contain `processEvent`. -/

abbrev EmitterId := Nat

/-- The binding-relevant state: the `_boundEmitter` field, and the emitters
on whose `message` event `processEvent` is currently registered. -/
structure BindingState where
  bound : Option EmitterId
  attached : List EmitterId
deriving DecidableEq, Repr

/-- Modelled from the spec: `GlobalEventEmitter.off` is external (`twa-core`);
per §4.3 it "removes a prior registration (idempotent — removing a
non-registered listener is a no-op, not an error)". -/
def offMessage (att : List EmitterId) (e : EmitterId) : List EmitterId :=
  att.filter (· ≠ e)

/-- Modelled from the spec: `GlobalEventEmitter.on` is external (`twa-core`);
per §4.3 it "registers a listener for exactly one kind". -/
def onMessage (att : List EmitterId) (e : EmitterId) : List EmitterId :=
  att ++ [e]

/-- First statement of the setter: `if (this._boundEmitter !== null)
this._boundEmitter.off('message', this.processEvent)`. -/
def detachStep (s : BindingState) : BindingState :=
  match s.bound with
  | some prev => { s with attached := offMessage s.attached prev }
  | none => s

/-- Second statement of the setter: `this._boundEmitter = emitter`. -/
def assignStep (s : BindingState) (e : Option EmitterId) : BindingState :=
  { s with bound := e }

/-- Third statement of the setter: `if (this._boundEmitter !== null)
this._boundEmitter.on('message', this.processEvent)`. -/
def attachStep (s : BindingState) : BindingState :=
  match s.bound with
  | some e => { s with attached := onMessage s.attached e }
  | none => s

/-- The `boundEmitter` setter (Bridge.ts:79-91): detach from the previous
emitter, assign, attach to the new one. -/
def setBoundEmitter (s : BindingState) (e : Option EmitterId) : BindingState :=
  attachStep (assignStep (detachStep s) e)

/-- The states passed through while the setter runs, in program order:
before, after `off`, after the assignment, after `on`. -/
def setBoundEmitterTrace (s : BindingState) (e : Option EmitterId) :
    List BindingState :=
  [s, detachStep s, assignStep (detachStep s) e, setBoundEmitter s e]

/-- `Bridge.bind` (Bridge.ts:165-167). -/
def bind (s : BindingState) (e : EmitterId) : BindingState :=
  setBoundEmitter s (some e)

/-- `Bridge.unbind` (Bridge.ts:264-266). -/
def unbind (s : BindingState) : BindingState :=
  setBoundEmitter s none

/-- Field initializer `_boundEmitter = null`, before the constructor body
runs; nothing is attached yet. -/
def initialState : BindingState := ⟨none, []⟩

/-- The binding effect of the constructor (Bridge.ts:64-73): `emitter`
defaults to `null` and `this.boundEmitter = emitter` invokes the setter. -/
def constructBinding (emitter : Option EmitterId) : BindingState :=
  setBoundEmitter initialState emitter

/-- A `message` event delivered on source `src` triggers `processEvent` iff
`processEvent` is registered on `src`. -/
def triggersProcessing (s : BindingState) (src : EmitterId) : Bool :=
  s.attached.contains src

/-- `processEvent` is attached to at most one source (and at most once). -/
def singleAttach (s : BindingState) : Prop :=
  s.attached.length ≤ 1

/-- The binding invariant the setter maintains: `processEvent` is attached
exactly to the bound emitter. -/
def goodState (s : BindingState) : Prop :=
  s.attached = s.bound.toList

/-! ### Outbound sender

`Bridge.postEvent` (Bridge.ts:218-248) probes the environment and performs
exactly one host call, or throws when no transport is available.  JS ambient
pieces (`JSON.stringify`, the three env predicates, the host objects) are
modelled below. -/

/-- Outcome of the three environment predicates from `./env`, re-evaluated
on each `postEvent` call.  Each is an abstract boolean oracle. -/
structure Env where
  isBrowserEnv : Bool
  isDesktopOrMobileEnv : Bool
  isWindowsPhoneEnv : Bool

/-- A call into the host: `window.parent.postMessage(message, targetOrigin)`,
`window.TelegramWebviewProxy.postEvent(event, paramsJson)`, or
`window.external.notify(message)`.  The proxy call's second argument is
`none` when `JSON.stringify` returned `undefined`. -/
inductive HostCall where
  | parentPostMessage (message : String) (targetOrigin : String)
  | webviewProxyPostEvent (event : String) (paramsJson : Option String)
  | windowsPhoneNotify (message : String)

/-- Lowercase hex digit, as produced by `JSON.stringify` escapes. -/
def hexDigit (n : Nat) : Char :=
  if n < 10 then Char.ofNat (48 + n) else Char.ofNat (87 + n)

/-- `JSON.stringify` escaping of one character inside a string literal. -/
def escapeJsonChar (c : Char) : String :=
  if c = '"' then "\\\""
  else if c = '\\' then "\\\\"
  else if c = '\n' then "\\n"
  else if c = '\r' then "\\r"
  else if c = '\t' then "\\t"
  else if c = Char.ofNat 8 then "\\b"
  else if c = Char.ofNat 12 then "\\f"
  else if c.toNat < 32 then
    "\\u00" ++ String.mk [hexDigit (c.toNat / 16), hexDigit (c.toNat % 16)]
  else String.singleton c

/-- `JSON.stringify` serialization of a string value. -/
def escapeJsonString (s : String) : String :=
  "\"" ++ String.join (s.toList.map escapeJsonChar) ++ "\""

mutual

/-- `JSON.stringify`: `none` for `undefined` (which serializes to no JSON
text); object fields whose value is `undefined` are omitted. -/
def jsonStringify : JSValue → Option String
  | .undef => none
  | .jsNull => some "null"
  | .bool b => some (if b then "true" else "false")
  | .num n => some (toString n)
  | .str s => some (escapeJsonString s)
  | .obj fields =>
      some ("\x7b" ++ String.intercalate "," (jsonFields fields) ++ "\x7d")

/-- Serialized `"key":value` members of an object, skipping `undefined`. -/
def jsonFields : List (String × JSValue) → List String
  | [] => []
  | (k, v) :: rest =>
      match jsonStringify v with
      | none => jsonFields rest
      | some sv => (escapeJsonString k ++ ":" ++ sv) :: jsonFields rest

end

/-- The default for the `targetOrigin` constructor prop (Bridge.ts:68). -/
def defaultTargetOrigin : String := "https://web.telegram.org"

/-- `PostEventOptions`: optional per-call target-origin override. -/
structure PostEventOptions where
  targetOrigin : Option String := none

/-- `options.targetOrigin || this.targetOrigin` (Bridge.ts:229): JS `||`
falls through on any falsy value, and the only falsy string is `""`. -/
def resolveTargetOrigin (opts : PostEventOptions) (bridgeTargetOrigin : String) :
    String :=
  match opts.targetOrigin with
  | some o => if o = "" then bridgeTargetOrigin else o
  | none => bridgeTargetOrigin

/-- `JSON.stringify({eventType: event, eventData: params})`, the wire message
of the browser and windows-phone transports.  The outer object always
serializes, so the result is total. -/
def wireJson (event : String) (params : JSValue) : String :=
  (jsonStringify (.obj [("eventType", .str event), ("eventData", params)])).getD ""

/-- `Bridge.postEvent` (Bridge.ts:218-248): the transport chosen by the
environment predicates, in source order, or the thrown error message when
none matches.  `params` defaults to `''` and `options` to `{}` at the call
sites that omit them. -/
def postEvent (env : Env) (bridgeTargetOrigin : String) (event : String)
    (params : JSValue) (options : PostEventOptions) : Except String HostCall :=
  if env.isBrowserEnv then
    .ok (.parentPostMessage (wireJson event params)
      (resolveTargetOrigin options bridgeTargetOrigin))
  else if env.isDesktopOrMobileEnv then
    .ok (.webviewProxyPostEvent event (jsonStringify params))
  else if env.isWindowsPhoneEnv then
    .ok (.windowsPhoneNotify (wireJson event params))
  else
    .error ("Bridge could not determine current environment and possible " ++
      "way to send event.")

/-- `postEvent` with the `params` argument omitted: the implementation
signature declares `params: any = ''`. -/
def postEventNoParams (env : Env) (bridgeTargetOrigin : String) (event : String)
    (options : PostEventOptions) : Except String HostCall :=
  postEvent env bridgeTargetOrigin event (.str "") options

/-- A concrete instantiation of the abstract extractor contract, used to
evaluate the dispatch theorems on explicit inputs: each JSON-value extractor
accepts exactly object payloads and the JSON-param extractor accepts exactly
string payloads, failing with a shape-validation error otherwise. -/
def exSample : Extractors where
  extractViewportChangedPayload := fun d => match d with
    | .obj f => .ok (.obj f)
    | _ => .error "viewport: invalid shape"
  extractThemeChangedPayload := fun d => match d with
    | .obj f => .ok (.obj f)
    | _ => .error "theme: invalid shape"
  extractPopupClosedPayload := fun d => match d with
    | .obj f => .ok (.obj f)
    | _ => .error "popup: invalid shape"
  extractInvoiceClosedPayload := fun d => match d with
    | .obj f => .ok (.obj f)
    | _ => .error "invoice: invalid shape"
  parseJsonParamAsString := fun d => match d with
    | .str s => .ok (.str s)
    | _ => .error "json param: invalid shape"

end BridgeModel

namespace BridgeModel

/-! ## Claim theorems -/

/-- C1.  For every inbound kind with a registered extractor
(`viewport_changed`, `theme_changed`, `invoice_closed`, `set_custom_style`,
and `popup_closed` with a present payload), if the extractor accepts the
raw payload then `processEvent` emits on the bus with payload equal to the
extractor's output, and if the extractor rejects it then `processEvent`
propagates the shape-validation error and performs no emission: the bus log
(hence every listener invocation) is unchanged. -/
theorem processEvent_extractor_dispatch (ex : Extractors) (bus : Bus)
    (data p : JSValue) (err : String) :
    (ex.extractViewportChangedPayload data = .ok p →
      processEvent ex bus "viewport_changed" data =
        (bus ++ [.typed "viewport_changed" (some p)], none)) ∧
    (ex.extractViewportChangedPayload data = .error err →
      processEvent ex bus "viewport_changed" data = (bus, some err)) ∧
    (ex.extractThemeChangedPayload data = .ok p →
      processEvent ex bus "theme_changed" data =
        (bus ++ [.typed "theme_changed" (some p)], none)) ∧
    (ex.extractThemeChangedPayload data = .error err →
      processEvent ex bus "theme_changed" data = (bus, some err)) ∧
    (ex.extractInvoiceClosedPayload data = .ok p →
      processEvent ex bus "invoice_closed" data =
        (bus ++ [.typed "invoice_closed" (some p)], none)) ∧
    (ex.extractInvoiceClosedPayload data = .error err →
      processEvent ex bus "invoice_closed" data = (bus, some err)) ∧
    (ex.parseJsonParamAsString data = .ok p →
      processEvent ex bus "set_custom_style" data =
        (bus ++ [.typed "set_custom_style" (some p)], none)) ∧
    (ex.parseJsonParamAsString data = .error err →
      processEvent ex bus "set_custom_style" data = (bus, some err)) ∧
    (data ≠ .undef → data ≠ .jsNull → ex.extractPopupClosedPayload data = .ok p →
      processEvent ex bus "popup_closed" data =
        (bus ++ [.typed "popup_closed" (some p)], none)) ∧
    (data ≠ .undef → data ≠ .jsNull →
      ex.extractPopupClosedPayload data = .error err →
      processEvent ex bus "popup_closed" data = (bus, some err)) := by
  refine ⟨fun h => ?_, fun h => ?_, fun h => ?_, fun h => ?_, fun h => ?_,
    fun h => ?_, fun h => ?_, fun h => ?_,
    fun h1 h2 h => ?_, fun h1 h2 h => ?_⟩ <;>
  simp [processEvent, emitExtracted, h]

/-- Closed evaluation of `processEvent_extractor_dispatch` at the sample
extractors: accepting and rejecting inputs for each of the five kinds. -/
theorem processEvent_extractor_dispatch_witness :
    processEvent exSample [] "viewport_changed" (.obj []) =
      ([.typed "viewport_changed" (some (.obj []))], none) ∧
    processEvent exSample [] "viewport_changed" (.num 7) =
      ([], some "viewport: invalid shape") ∧
    processEvent exSample [] "theme_changed" (.obj []) =
      ([.typed "theme_changed" (some (.obj []))], none) ∧
    processEvent exSample [] "theme_changed" (.num 7) =
      ([], some "theme: invalid shape") ∧
    processEvent exSample [] "invoice_closed" (.obj []) =
      ([.typed "invoice_closed" (some (.obj []))], none) ∧
    processEvent exSample [] "invoice_closed" (.num 7) =
      ([], some "invoice: invalid shape") ∧
    processEvent exSample [] "set_custom_style" (.str "p") =
      ([.typed "set_custom_style" (some (.str "p"))], none) ∧
    processEvent exSample [] "set_custom_style" (.num 7) =
      ([], some "json param: invalid shape") ∧
    processEvent exSample [] "popup_closed" (.obj [("button_id", .str "ok")]) =
      ([.typed "popup_closed" (some (.obj [("button_id", .str "ok")]))], none) ∧
    processEvent exSample [] "popup_closed" (.num 7) =
      ([], some "popup: invalid shape") := by
  have T := fun d p e => processEvent_extractor_dispatch exSample [] d p e
  exact ⟨(T (.obj []) (.obj []) "").1 rfl,
    (T (.num 7) (.obj []) "viewport: invalid shape").2.1 rfl,
    (T (.obj []) (.obj []) "").2.2.1 rfl,
    (T (.num 7) (.obj []) "theme: invalid shape").2.2.2.1 rfl,
    (T (.obj []) (.obj []) "").2.2.2.2.1 rfl,
    (T (.num 7) (.obj []) "invoice: invalid shape").2.2.2.2.2.1 rfl,
    (T (.str "p") (.str "p") "").2.2.2.2.2.2.1 rfl,
    (T (.num 7) (.obj []) "json param: invalid shape").2.2.2.2.2.2.2.1 rfl,
    (T (.obj [("button_id", .str "ok")]) (.obj [("button_id", .str "ok")]) "").2.2.2.2.2.2.2.2.1
      (fun h => JSValue.noConfusion h) (fun h => JSValue.noConfusion h) rfl,
    (T (.num 7) (.obj []) "popup: invalid shape").2.2.2.2.2.2.2.2.2
      (fun h => JSValue.noConfusion h) (fun h => JSValue.noConfusion h) rfl⟩

/-- C2.  `processEvent "popup_closed"` with payload `undefined` or `null`
emits the canonical `{button_id: null}` payload; every other raw payload
(including falsy values) is routed through the popup extractor. -/
theorem processEvent_popup_closed_dispatch (ex : Extractors) (bus : Bus) :
    processEvent ex bus "popup_closed" .undef =
      (bus ++ [.typed "popup_closed" (some (.obj [("button_id", .jsNull)]))], none) ∧
    processEvent ex bus "popup_closed" .jsNull =
      (bus ++ [.typed "popup_closed" (some (.obj [("button_id", .jsNull)]))], none) ∧
    ∀ data : JSValue, data ≠ .undef → data ≠ .jsNull →
      processEvent ex bus "popup_closed" data =
        emitExtracted (ex.extractPopupClosedPayload data) bus "popup_closed" := by
  refine ⟨rfl, rfl, fun data h1 h2 => ?_⟩
  cases data
  case undef => exact absurd rfl h1
  case jsNull => exact absurd rfl h2
  all_goals rfl

/-- Closed evaluation of `processEvent_popup_closed_dispatch`: the two
absent representations synthesize `{button_id: null}`, while the falsy
payloads `0`, `false` and `""` go to the extractor (which the sample
extractor rejects). -/
theorem processEvent_popup_closed_dispatch_witness :
    processEvent exSample [] "popup_closed" .undef =
      ([.typed "popup_closed" (some (.obj [("button_id", .jsNull)]))], none) ∧
    processEvent exSample [] "popup_closed" .jsNull =
      ([.typed "popup_closed" (some (.obj [("button_id", .jsNull)]))], none) ∧
    processEvent exSample [] "popup_closed" (.num 0) =
      ([], some "popup: invalid shape") ∧
    processEvent exSample [] "popup_closed" (.bool false) =
      ([], some "popup: invalid shape") ∧
    processEvent exSample [] "popup_closed" (.str "") =
      ([], some "popup: invalid shape") := by
  have T := processEvent_popup_closed_dispatch exSample []
  exact ⟨T.1, T.2.1,
    (T.2.2 (.num 0) (fun h => JSValue.noConfusion h)
      (fun h => JSValue.noConfusion h)).trans rfl,
    (T.2.2 (.bool false) (fun h => JSValue.noConfusion h)
      (fun h => JSValue.noConfusion h)).trans rfl,
    (T.2.2 (.str "") (fun h => JSValue.noConfusion h)
      (fun h => JSValue.noConfusion h)).trans rfl⟩

/-- C5.  For every kind outside the closed inbound set, `processEvent`
emits via the unsafe path with the raw payload passed through unchanged and
never raises a validation error. -/
theorem processEvent_unknown_kind (ex : Extractors) (bus : Bus) (type : String)
    (data : JSValue)
    (h1 : type ≠ "viewport_changed") (h2 : type ≠ "theme_changed")
    (h3 : type ≠ "popup_closed") (h4 : type ≠ "set_custom_style")
    (h5 : type ≠ "main_button_pressed") (h6 : type ≠ "back_button_pressed")
    (h7 : type ≠ "settings_button_pressed") (h8 : type ≠ "invoice_closed") :
    processEvent ex bus type data = (bus ++ [.untyped type data], none) := by
  simp [processEvent, h1, h2, h3, h4, h5, h6, h7, h8]

/-- Closed evaluation of `processEvent_unknown_kind` at a future kind with
payload `{x: 1}`: the payload is passed through unchanged. -/
theorem processEvent_unknown_kind_witness :
    processEvent exSample [] "some_future_kind" (.obj [("x", .num 1)]) =
      ([.untyped "some_future_kind" (.obj [("x", .num 1)])], none) :=
  processEvent_unknown_kind exSample [] "some_future_kind" (.obj [("x", .num 1)])
    (by decide) (by decide) (by decide) (by decide)
    (by decide) (by decide) (by decide) (by decide)

/-- C6.  For each argument-less inbound kind and every raw payload
whatsoever, `processEvent` emits that kind with no payload; the raw value
has no effect on the emission. -/
theorem processEvent_argless_ignores_payload (ex : Extractors) (bus : Bus)
    (data : JSValue) :
    processEvent ex bus "main_button_pressed" data =
      (bus ++ [.typed "main_button_pressed" none], none) ∧
    processEvent ex bus "back_button_pressed" data =
      (bus ++ [.typed "back_button_pressed" none], none) ∧
    processEvent ex bus "settings_button_pressed" data =
      (bus ++ [.typed "settings_button_pressed" none], none) :=
  ⟨rfl, rfl, rfl⟩

/-! ### Binding lemmas -/

lemma goodState_initial : goodState initialState := rfl

/-- After the `off` statement of the setter, nothing is attached (starting
from a state where `processEvent` is attached exactly to the bound
emitter). -/
lemma detachStep_of_good (s : BindingState) (h : goodState s) :
    detachStep s = ⟨s.bound, []⟩ := by
  cases s with
  | mk b a =>
    cases b with
    | none =>
        simp only [goodState, Option.toList] at h
        simp [detachStep, h]
    | some prev =>
        simp only [goodState, Option.toList] at h
        simp [detachStep, offMessage, h]

/-- Full characterization of the setter on good states: the new emitter is
recorded and `processEvent` is attached exactly to it. -/
lemma setBoundEmitter_of_good (s : BindingState) (e : Option EmitterId)
    (h : goodState s) : setBoundEmitter s e = ⟨e, e.toList⟩ := by
  rw [setBoundEmitter, detachStep_of_good s h]
  cases e <;> simp [assignStep, attachStep, onMessage, Option.toList]

lemma setBoundEmitter_good (s : BindingState) (e : Option EmitterId)
    (h : goodState s) : goodState (setBoundEmitter s e) := by
  rw [setBoundEmitter_of_good s e h]; rfl

/-- Every state passed through while the setter runs keeps `processEvent`
attached to at most one source. -/
lemma setBoundEmitterTrace_singleAttach (s : BindingState) (e : Option EmitterId)
    (h : goodState s) : ∀ t ∈ setBoundEmitterTrace s e, singleAttach t := by
  have hd := detachStep_of_good s h
  have g1 : singleAttach s := by
    rw [singleAttach, h]; cases s.bound <;> simp [Option.toList]
  have g2 : singleAttach (detachStep s) := by rw [hd]; simp [singleAttach]
  have g3 : singleAttach (assignStep (detachStep s) e) := by
    rw [hd]; simp [singleAttach, assignStep]
  have g4 : singleAttach (setBoundEmitter s e) := by
    rw [setBoundEmitter_of_good s e h, singleAttach]
    cases e <;> simp [Option.toList]
  intro t ht
  simp only [setBoundEmitterTrace, List.mem_cons, List.not_mem_nil, or_false] at ht
  rcases ht with rfl | rfl | rfl | rfl
  exacts [g1, g2, g3, g4]

/-- C3.  After `bind A` then `bind B` (with `A ≠ B`), a `message` on `A` no
longer triggers `processEvent` while one on `B` does; and the setter's
detach-before-attach ordering means that from any good state, every state
reached during a rebind (including the intermediate ones) has
`processEvent` attached to at most one source, and good states are
preserved. -/
theorem rebind_detaches_previous_source (A B : EmitterId) (hAB : A ≠ B) :
    triggersProcessing (bind (bind initialState A) B) A = false ∧
    triggersProcessing (bind (bind initialState A) B) B = true ∧
    (∀ s e, goodState s → ∀ t ∈ setBoundEmitterTrace s e, singleAttach t) ∧
    (∀ s e, goodState s → goodState (setBoundEmitter s e)) := by
  have h1 : bind initialState A = ⟨some A, [A]⟩ :=
    setBoundEmitter_of_good initialState (some A) goodState_initial
  have h2 : bind (bind initialState A) B = ⟨some B, [B]⟩ := by
    rw [h1]; exact setBoundEmitter_of_good ⟨some A, [A]⟩ (some B) rfl
  refine ⟨?_, ?_, fun s e h => setBoundEmitterTrace_singleAttach s e h,
    fun s e h => setBoundEmitter_good s e h⟩
  · rw [h2]; simp [triggersProcessing, hAB]
  · rw [h2]; simp [triggersProcessing]

/-- Closed evaluation of `rebind_detaches_previous_source` at sources `0`
and `1`. -/
theorem rebind_detaches_previous_source_witness :
    triggersProcessing (bind (bind initialState 0) 1) 0 = false ∧
    triggersProcessing (bind (bind initialState 0) 1) 1 = true := by
  have T := rebind_detaches_previous_source 0 1 (by decide)
  exact ⟨T.1, T.2.1⟩

/-- C7.  `unbind` after `bind A` detaches `processEvent` from `A` (so a
subsequent `message` on `A` is not processed) and records the unbound
state; `unbind` while already unbound leaves the state exactly unchanged
(and, being a total function, cannot throw). -/
theorem unbind_stops_processing (A : EmitterId) (s t : BindingState)
    (hs : goodState s) (ht : t.bound = none) :
    triggersProcessing (unbind (bind s A)) A = false ∧
    (unbind (bind s A)).bound = none ∧
    unbind t = t := by
  have h1 : bind s A = ⟨some A, [A]⟩ := setBoundEmitter_of_good s (some A) hs
  have h2 : unbind (bind s A) = ⟨none, []⟩ := by
    rw [h1]; exact setBoundEmitter_of_good ⟨some A, [A]⟩ none rfl
  refine ⟨by rw [h2]; rfl, by rw [h2], ?_⟩
  cases t with
  | mk b a =>
    cases ht
    rfl

/-- Closed evaluation of `unbind_stops_processing` at source `0` from the
initial state, and of the no-op clause at an unbound state with a stale
attachment list. -/
theorem unbind_stops_processing_witness :
    triggersProcessing (unbind (bind initialState 0)) 0 = false ∧
    unbind (⟨none, [5]⟩ : BindingState) = ⟨none, [5]⟩ := by
  have T := unbind_stops_processing 0 initialState ⟨none, [5]⟩ goodState_initial rfl
  exact ⟨T.1, T.2.2⟩

/-- C9.  Supplying an emitter at construction produces exactly the state of
constructing without one and then calling `bind`: both go through the
single `boundEmitter` setter path. -/
theorem construction_binding_matches_bind (e : EmitterId) :
    constructBinding (some e) = bind (constructBinding none) e ∧
    constructBinding none = initialState :=
  ⟨rfl, rfl⟩

/-- C4.  When none of the three environment predicates holds, `postEvent`
throws the environment-resolution error and performs no host call on any
transport; the call fails outright, with no retry inside `postEvent`. -/
theorem postEvent_undetermined_env (env : Env) (bto event : String)
    (params : JSValue) (opts : PostEventOptions)
    (h1 : env.isBrowserEnv = false) (h2 : env.isDesktopOrMobileEnv = false)
    (h3 : env.isWindowsPhoneEnv = false) :
    postEvent env bto event params opts =
      .error ("Bridge could not determine current environment and possible " ++
        "way to send event.") ∧
    ∀ c : HostCall, postEvent env bto event params opts ≠ .ok c := by
  constructor
  · simp [postEvent, h1, h2, h3]
  · intro c
    simp [postEvent, h1, h2, h3]

/-- Closed evaluation of `postEvent_undetermined_env` in the undetermined
environment. -/
theorem postEvent_undetermined_env_witness :
    postEvent ⟨false, false, false⟩ defaultTargetOrigin "web_app_ready"
        (.str "") ⟨none⟩ =
      .error ("Bridge could not determine current environment and possible " ++
        "way to send event.") :=
  (postEvent_undetermined_env ⟨false, false, false⟩ defaultTargetOrigin
    "web_app_ready" (.str "") ⟨none⟩ rfl rfl rfl).1

/-- C8, counterexample.  The browser transport resolves the target origin
with JS `||`, so a *provided* empty-string `options.targetOrigin` is falsy
and the message is posted to the Bridge's configured target-origin instead
of the provided value. -/
theorem postEvent_provided_targetOrigin_counterexample :
    postEvent ⟨true, false, false⟩ "https://web.telegram.org" "iframe_ready"
        (.str "") ⟨some ""⟩ =
      .ok (.parentPostMessage
        "\x7b\"eventType\":\"iframe_ready\",\"eventData\":\"\"\x7d"
        "https://web.telegram.org") ∧
    ("https://web.telegram.org" : String) ≠ "" :=
  ⟨rfl, by decide⟩

/-- C8, amended.  In the browser environment, `postEvent` posts to the
parent window exactly the JSON serialization of
`{eventType: kind, eventData: params}`, targeted at `options.targetOrigin`
when provided and non-empty, and otherwise (absent or empty string) at the
Bridge's configured target-origin, whose default is
`https://web.telegram.org`. -/
theorem postEvent_browser_wire_and_origin (env : Env) (bto event o : String)
    (params : JSValue) (h : env.isBrowserEnv = true) :
    postEvent env bto event params ⟨some o⟩ =
      .ok (.parentPostMessage (wireJson event params)
        (if o = "" then bto else o)) ∧
    postEvent env bto event params ⟨none⟩ =
      .ok (.parentPostMessage (wireJson event params) bto) ∧
    defaultTargetOrigin = "https://web.telegram.org" := by
  refine ⟨?_, ?_, rfl⟩ <;> simp [postEvent, resolveTargetOrigin, h]

/-- Closed evaluation of `postEvent_browser_wire_and_origin`: a non-empty
provided origin wins, and the wire message is the serialized
`{eventType, eventData}` object. -/
theorem postEvent_browser_wire_and_origin_witness :
    postEvent ⟨true, false, false⟩ "https://web.telegram.org"
        "web_app_data_send" (.str "x") ⟨some "https://example.org"⟩ =
      .ok (.parentPostMessage
        "\x7b\"eventType\":\"web_app_data_send\",\"eventData\":\"x\"\x7d"
        "https://example.org") := by
  have T := postEvent_browser_wire_and_origin ⟨true, false, false⟩
    "https://web.telegram.org" "web_app_data_send" "https://example.org"
    (.str "x") rfl
  exact T.1.trans (by rfl)

/-- C10.  With the `params` argument omitted it defaults to `''`: the
browser and windows-phone transports serialize `eventData` as the JSON
text `""` inside the wire object, and the shell transport receives the
JSON string `'""'` as its second argument — `params` is never absent on
the wire. -/
theorem postEvent_default_params_empty_string (bto event : String) :
    postEventNoParams ⟨true, false, false⟩ bto event ⟨none⟩ =
      .ok (.parentPostMessage
        (("\x7b" ++ (("\"eventType\":" ++ escapeJsonString event ++ ",") ++
          "\"eventData\":\"\"")) ++ "\x7d") bto) ∧
    postEventNoParams ⟨false, true, false⟩ bto event ⟨none⟩ =
      .ok (.webviewProxyPostEvent event (some "\"\"")) ∧
    postEventNoParams ⟨false, false, true⟩ bto event ⟨none⟩ =
      .ok (.windowsPhoneNotify
        (("\x7b" ++ (("\"eventType\":" ++ escapeJsonString event ++ ",") ++
          "\"eventData\":\"\"")) ++ "\x7d")) :=
  ⟨rfl, rfl, rfl⟩

end BridgeModel
